import Mathlib

/-!
Verification of the Game CRUD resource service
(Express route handlers in app.js over the Mongoose model in
src/models/gameModel.js).

The persistence backend (MongoDB via Mongoose) is external to the
repository; it is modelled from the spec as a list of records together
with a fresh-identifier counter and an explicit clock: the backend
assigns `nextId` to a newly created record and bumps the counter, and
stamps `createdAt`/`updatedAt` (the schema is declared with
`timestamps: true`).  A record's identifier is modelled as a `Nat`;
the HTTP-level ObjectId cast behaviour is modelled separately below.
-/

set_option autoImplicit false

namespace GameCrud

/-- One stored Game document: the four user fields of `gameSchema`,
the backend-assigned `_id`, and the two timestamps added by
`timestamps: true`. -/
structure GameRecord where
  id : Nat
  name : String
  url : String
  author : String
  datePublished : String
  createdAt : Nat
  updatedAt : Nat
deriving Repr, DecidableEq

/-- An incoming request body (`req.body`): each of the four schema
fields may be absent. -/
structure Payload where
  name : Option String
  url : Option String
  author : Option String
  datePublished : Option String
deriving Repr, DecidableEq

/-- Modelled from the spec: the external document store, holding the
stored records in insertion order and the backend's fresh-identifier
counter. -/
structure Store where
  games : List GameRecord
  nextId : Nat
deriving Repr, DecidableEq

/-- A response: HTTP status code plus the JSON body shape used by the
handlers (a record, an array of records, or a message object). -/
inductive Body where
  | record : GameRecord → Body
  | records : List GameRecord → Body
  | message : String → Body
deriving Repr, DecidableEq

/-- `res.status(s).json(b)`. -/
structure Response where
  status : Nat
  body : Body
deriving Repr, DecidableEq

/-- Mongoose's required check for a `String` path: the value must be a
present string of positive length (`gameSchema` marks all four paths
`required`). -/
def checkRequired : Option String → Bool
  | some s => decide (0 < s.length)
  | none => false

/-- The validation errors collected on `save()`: one `(path, message)`
entry per missing or empty required field, with the messages written in
`gameSchema` (`"enter the game name"` etc.), each path checked
independently. -/
def validationErrors (p : Payload) : List (String × String) :=
  (if checkRequired p.name then [] else [("name", "enter the game name")]) ++
  (if checkRequired p.url then [] else [("url", "enter the game url")]) ++
  (if checkRequired p.author then [] else [("author", "enter the game author")]) ++
  (if checkRequired p.datePublished then [] else [("datePublished", "enter the date published")])

/-- The `err.message` of a Mongoose ValidationError on the Game model:
the per-path messages joined after the model-level prefix. -/
def validationMessage (errs : List (String × String)) : String :=
  "Game validation failed: " ++
    String.intercalate ", " (errs.map (fun e => e.1 ++ ": " ++ e.2))

/-- `new Game(req.body)` followed by `game.save()`: validation runs the
required checks; on success the backend persists a new record carrying
the payload's field values, a fresh `_id`, and `createdAt = updatedAt`
set to the current time. -/
def createGame (st : Store) (p : Payload) (now : Nat) :
    Except (List (String × String)) (GameRecord × Store) :=
  let errs := validationErrors p
  if errs.isEmpty then
    let r : GameRecord :=
      { id := st.nextId
        name := p.name.getD ""
        url := p.url.getD ""
        author := p.author.getD ""
        datePublished := p.datePublished.getD ""
        createdAt := now
        updatedAt := now }
    .ok (r, { games := st.games ++ [r], nextId := st.nextId + 1 })
  else
    .error errs

/-- The `POST /game` handler: on success responds 200 with the created
record; a validation error is caught and answered with 500 and the
error's message. -/
def postGame (st : Store) (p : Payload) (now : Nat) : Response × Store :=
  match createGame st p now with
  | .ok (r, st2) => (⟨200, .record r⟩, st2)
  | .error errs => (⟨500, .message (validationMessage errs)⟩, st)

/-- `Game.findById(id)`: the backend's lookup by identifier. -/
def findById (st : Store) (id : Nat) : Option GameRecord :=
  st.games.find? (fun g => g.id == id)

/-- The 404 body text of the three by-id handlers. -/
def notFoundMessage (id : Nat) : String :=
  "Cannot find the game with id " ++ toString id

/-- The `GET /games` handler: responds 200 with `Game.find({})`, the
array of all stored records; an empty store yields an empty array. -/
def listGames (st : Store) : Response × Store :=
  (⟨200, .records st.games⟩, st)

/-- The `GET /games/:id` handler: 404 with a message naming the id when
the lookup misses, otherwise 200 with the record unchanged. -/
def getGame (st : Store) (id : Nat) : Response × Store :=
  match findById st id with
  | none => (⟨404, .message (notFoundMessage id)⟩, st)
  | some r => (⟨200, .record r⟩, st)

/-- `findByIdAndUpdate(id, req.body, \x7b new: true \x7d)` applied to one
document: fields present in the body overwrite the stored ones, absent
fields are left unchanged, and `timestamps: true` refreshes
`updatedAt`; no validator runs. -/
def applyUpdate (r : GameRecord) (p : Payload) (now : Nat) : GameRecord :=
  { r with
    name := p.name.getD r.name
    url := p.url.getD r.url
    author := p.author.getD r.author
    datePublished := p.datePublished.getD r.datePublished
    updatedAt := now }

/-- The `PUT /games/:id` handler: 404 with a message naming the id when
the lookup misses; otherwise the matching document is updated in place
and, with `new: true`, the updated record is returned with 200. -/
def updateGame (st : Store) (id : Nat) (p : Payload) (now : Nat) : Response × Store :=
  match findById st id with
  | none => (⟨404, .message (notFoundMessage id)⟩, st)
  | some r =>
    let r2 := applyUpdate r p now
    (⟨200, .record r2⟩,
      { st with games := st.games.map (fun g => if g.id == id then r2 else g) })

/-- The `DELETE /games/:id` handler: 404 with a message naming the id
when the lookup misses; otherwise `findByIdAndDelete` removes the
document and returns it as it existed before deletion, answered with
200. -/
def deleteGame (st : Store) (id : Nat) : Response × Store :=
  match findById st id with
  | none => (⟨404, .message (notFoundMessage id)⟩, st)
  | some r =>
    (⟨200, .record r⟩,
      { st with games := st.games.filter (fun g => !(g.id == id)) })

/-- One client request against the service. -/
inductive Op where
  | create : Payload → Nat → Op
  | list : Op
  | get : Nat → Op
  | update : Nat → Payload → Nat → Op
  | delete : Nat → Op
deriving Repr, DecidableEq

/-- The store after serving one request. -/
def step (st : Store) : Op → Store
  | .create p now => (postGame st p now).2
  | .list => (listGames st).2
  | .get id => (getGame st id).2
  | .update id p now => (updateGame st id p now).2
  | .delete id => (deleteGame st id).2

/-- The store after serving a sequence of requests. -/
def run (st : Store) (ops : List Op) : Store :=
  ops.foldl step st

/-- Backend identifier discipline, modelled from the spec: stored ids
are pairwise distinct and every stored id is below the fresh counter,
so a consumed id is never handed out again. -/
def Inv (st : Store) : Prop :=
  (st.games.map (fun g => g.id)).Nodup ∧ ∀ g ∈ st.games, g.id < st.nextId

/-- `id` is dead in the store: no record carries it and the backend
counter has moved past it, so no future create can assign it. -/
def idFree (st : Store) (id : Nat) : Prop :=
  (∀ g ∈ st.games, g.id ≠ id) ∧ id < st.nextId

instance (st : Store) : Decidable (Inv st) := by
  unfold Inv; infer_instance

instance (st : Store) (id : Nat) : Decidable (idFree st id) := by
  unfold idFree; infer_instance

/-- Is `c` a hexadecimal digit? -/
def isHexDigit (c : Char) : Bool :=
  c.isDigit || ('a' ≤ c && c ≤ 'f') || ('A' ≤ c && c ≤ 'F')

/-- Modelled from the spec: Mongoose casts the `:id` route parameter to
an ObjectId before querying; a string is castable exactly when it is 24
hexadecimal characters or any 12 characters (12 raw bytes). -/
def isValidObjectId (s : String) : Bool :=
  (s.length == 24 && s.data.all isHexDigit) || s.length == 12

/-- Numeric value of a hexadecimal digit character. -/
def hexVal (c : Char) : Nat :=
  if c.isDigit then c.toNat - 48
  else if 'a' ≤ c && c ≤ 'f' then c.toNat - 87
  else c.toNat - 55

/-- Modelled from the spec: decoding a castable ObjectId string to the
backend identifier it denotes. -/
def decodeObjectId (s : String) : Nat :=
  if s.length == 12 then s.data.foldl (fun acc c => acc * 256 + c.toNat) 0
  else s.data.foldl (fun acc c => acc * 16 + hexVal c) 0

/-- The `err.message` of the CastError thrown when the `:id` parameter
is not castable to an ObjectId. -/
def castErrorMessage (s : String) : String :=
  "Cast to ObjectId failed for value \"" ++ s ++
    "\" (type string) at path \"_id\" for model \"Game\""

/-- The `GET /games/:id` handler including the ObjectId cast: a cast
failure is caught by the handler's catch block and answered with 500
and the cast error's message. -/
def getGameHttp (st : Store) (idStr : String) : Response × Store :=
  if isValidObjectId idStr then getGame st (decodeObjectId idStr)
  else (⟨500, .message (castErrorMessage idStr)⟩, st)

/-- The `PUT /games/:id` handler including the ObjectId cast. -/
def updateGameHttp (st : Store) (idStr : String) (p : Payload) (now : Nat) :
    Response × Store :=
  if isValidObjectId idStr then updateGame st (decodeObjectId idStr) p now
  else (⟨500, .message (castErrorMessage idStr)⟩, st)

/-- The `DELETE /games/:id` handler including the ObjectId cast. -/
def deleteGameHttp (st : Store) (idStr : String) : Response × Store :=
  if isValidObjectId idStr then deleteGame st (decodeObjectId idStr)
  else (⟨500, .message (castErrorMessage idStr)⟩, st)

/-! ## Helper lemmas -/

theorem length_pos_of_ne_empty {s : String} (h : s ≠ "") : 0 < s.length := by
  cases s with
  | mk data =>
    cases data with
    | nil => exact absurd rfl h
    | cons c cs => simp [String.length]

theorem checkRequired_some {s : String} (h : s ≠ "") :
    checkRequired (some s) = true := by
  simp [checkRequired, length_pos_of_ne_empty h]

theorem validationErrors_eq_nil {p : Payload}
    (h1 : checkRequired p.name = true) (h2 : checkRequired p.url = true)
    (h3 : checkRequired p.author = true)
    (h4 : checkRequired p.datePublished = true) :
    validationErrors p = [] := by
  simp [validationErrors, h1, h2, h3, h4]

theorem createGame_ok_spec {st : Store} {p : Payload} {now : Nat}
    {r : GameRecord} {st2 : Store}
    (h : createGame st p now = .ok (r, st2)) :
    r = { id := st.nextId, name := p.name.getD "", url := p.url.getD ""
          author := p.author.getD ""
          datePublished := p.datePublished.getD ""
          createdAt := now, updatedAt := now } ∧
    st2 = { games := st.games ++ [r], nextId := st.nextId + 1 } := by
  unfold createGame at h
  cases hv : (validationErrors p).isEmpty with
  | false => simp [hv] at h
  | true =>
    simp only [hv, if_true] at h
    cases h
    exact ⟨rfl, rfl⟩

theorem nat_repr_ne_empty (n : Nat) : Nat.repr n ≠ "" := by
  have key : ∀ f m ds, ds.length ≤ (Nat.toDigitsCore 10 f m ds).length := by
    intro f
    induction f with
    | zero => intro m ds; simp [Nat.toDigitsCore]
    | succ f ih =>
      intro m ds
      simp only [Nat.toDigitsCore]
      by_cases hdiv : m / 10 = 0
      · simp [hdiv]
      · simp only [hdiv, if_false]
        calc ds.length ≤ (Nat.digitChar (m % 10) :: ds).length := by simp
          _ ≤ _ := ih (m / 10) (Nat.digitChar (m % 10) :: ds)
  have hlen : 0 < (Nat.toDigits 10 n).length := by
    unfold Nat.toDigits Nat.toDigitsCore
    by_cases hdiv : n / 10 = 0
    · simp [hdiv]
    · simp only [hdiv, if_false]
      calc 0 < (Nat.digitChar (n % 10) :: []).length := by simp
        _ ≤ _ := key n (n / 10) (Nat.digitChar (n % 10) :: [])
  intro hcontra
  rw [Nat.repr] at hcontra
  have : (Nat.toDigits 10 n).length = 0 := by
    have := congrArg String.length hcontra
    simpa [List.asString, String.length] using this
  omega

theorem find?_map_replace (l : List GameRecord) (id : Nat) (r2 : GameRecord)
    (h2 : r2.id = id) :
    (l.map (fun g => if g.id == id then r2 else g)).find? (fun g => g.id == id) =
      (l.find? (fun g => g.id == id)).map (fun _ => r2) := by
  induction l with
  | nil => simp
  | cons g gs ih =>
    by_cases hg : g.id = id
    · simp [hg, h2]
    · simp only [List.map_cons]
      rw [if_neg (by simpa using hg)]
      rw [List.find?_cons_of_neg _ (by simpa using hg),
        List.find?_cons_of_neg _ (by simpa using hg)]
      exact ih

theorem find?_filter_ne (l : List GameRecord) (id : Nat) :
    (l.filter (fun g => !(g.id == id))).find? (fun g => g.id == id) = none := by
  rw [List.find?_eq_none]
  intro g hg
  have := (List.mem_filter.mp hg).2
  simpa using this

/-! ## Claims -/

/-- C1: a Create whose payload misses (or leaves empty) any of the four
required fields is rejected: the store is unchanged, the handler
answers 500 with the validation error's message, and each missing field
contributes its own schema message, checked independently of the
others. -/
theorem c1_create_validation (st : Store) (p : Payload) (now : Nat)
    (h : checkRequired p.name = false ∨ checkRequired p.url = false ∨
      checkRequired p.author = false ∨ checkRequired p.datePublished = false) :
    (postGame st p now).2 = st ∧
    (postGame st p now).1.status = 500 ∧
    (postGame st p now).1.body =
      .message (validationMessage (validationErrors p)) ∧
    (checkRequired p.name = false →
      ("name", "enter the game name") ∈ validationErrors p) ∧
    (checkRequired p.url = false →
      ("url", "enter the game url") ∈ validationErrors p) ∧
    (checkRequired p.author = false →
      ("author", "enter the game author") ∈ validationErrors p) ∧
    (checkRequired p.datePublished = false →
      ("datePublished", "enter the date published") ∈ validationErrors p) := by
  have herr : validationErrors p ≠ [] := by
    unfold validationErrors
    rcases h with h | h | h | h <;> simp [h]
  have hne : (validationErrors p).isEmpty = false := by
    cases hv : (validationErrors p).isEmpty
    · rfl
    · exact absurd (List.isEmpty_iff.mp hv) herr
  refine ⟨?_, ?_, ?_, ?_, ?_, ?_, ?_⟩
  · simp [postGame, createGame, hne]
  · simp [postGame, createGame, hne]
  · simp [postGame, createGame, hne]
  · intro hf; simp [validationErrors, hf]
  · intro hf; simp [validationErrors, hf]
  · intro hf; simp [validationErrors, hf]
  · intro hf; simp [validationErrors, hf]

/-- C1 witness: a payload with no name is rejected on the concrete
empty store. -/
theorem c1_create_validation_witness :
    (postGame ⟨[], 0⟩ ⟨none, some "u", some "a", some "d"⟩ 0).2 = ⟨[], 0⟩ ∧
    (postGame ⟨[], 0⟩ ⟨none, some "u", some "a", some "d"⟩ 0).1.status = 500 ∧
    ("name", "enter the game name") ∈
      validationErrors ⟨none, some "u", some "a", some "d"⟩ :=
  have h := c1_create_validation ⟨[], 0⟩ ⟨none, some "u", some "a", some "d"⟩ 0
    (Or.inl (by decide))
  ⟨h.1, h.2.1, h.2.2.2.1 (by decide)⟩

/-- C2: a Create whose payload carries all four fields non-empty
succeeds with 200; the created record keeps the supplied field values,
gets the backend's fresh identifier (whose rendering is non-empty), and
has equal creation and update timestamps. -/
theorem c2_create_valid (st : Store) (p : Payload) (now : Nat)
    (nm u a d : String)
    (hn : p.name = some nm) (hn2 : nm ≠ "")
    (hu : p.url = some u) (hu2 : u ≠ "")
    (ha : p.author = some a) (ha2 : a ≠ "")
    (hd : p.datePublished = some d) (hd2 : d ≠ "") :
    ∃ r : GameRecord,
      postGame st p now =
        (⟨200, .record r⟩, ⟨st.games ++ [r], st.nextId + 1⟩) ∧
      r.name = nm ∧ r.url = u ∧ r.author = a ∧ r.datePublished = d ∧
      r.id = st.nextId ∧ Nat.repr r.id ≠ "" ∧
      r.createdAt = now ∧ r.updatedAt = now ∧ r.createdAt = r.updatedAt := by
  have hv : validationErrors p = [] := by
    refine validationErrors_eq_nil ?_ ?_ ?_ ?_
    · rw [hn]; exact checkRequired_some hn2
    · rw [hu]; exact checkRequired_some hu2
    · rw [ha]; exact checkRequired_some ha2
    · rw [hd]; exact checkRequired_some hd2
  refine ⟨{ id := st.nextId, name := nm, url := u, author := a
            datePublished := d, createdAt := now, updatedAt := now },
    ?_, rfl, rfl, rfl, rfl, rfl, nat_repr_ne_empty _, rfl, rfl, rfl⟩
  simp [postGame, createGame, hv, hn, hu, ha, hd]

/-- C2 witness: creating a concrete fully-populated payload on the
empty store. -/
theorem c2_create_valid_witness :
    ∃ r : GameRecord,
      postGame ⟨[], 0⟩ ⟨some "Chess", some "http://x", some "A", some "2020"⟩ 7 =
        (⟨200, .record r⟩, ⟨[r], 1⟩) ∧
      r.name = "Chess" ∧ r.url = "http://x" ∧ r.author = "A" ∧
      r.datePublished = "2020" ∧
      r.id = 0 ∧ Nat.repr r.id ≠ "" ∧
      r.createdAt = 7 ∧ r.updatedAt = 7 ∧ r.createdAt = r.updatedAt :=
  c2_create_valid ⟨[], 0⟩ ⟨some "Chess", some "http://x", some "A", some "2020"⟩ 7
    "Chess" "http://x" "A" "2020"
    rfl (by decide) rfl (by decide) rfl (by decide) rfl (by decide)

/-- C5: GetById, UpdateById and DeleteById on an identifier resolving
to no record each answer 404 with the message carrying the requested
id, and leave the store unchanged. -/
theorem c5_not_found_all (st : Store) (id : Nat) (p : Payload) (now : Nat)
    (h : findById st id = none) :
    getGame st id = (⟨404, .message (notFoundMessage id)⟩, st) ∧
    updateGame st id p now = (⟨404, .message (notFoundMessage id)⟩, st) ∧
    deleteGame st id = (⟨404, .message (notFoundMessage id)⟩, st) ∧
    notFoundMessage id = "Cannot find the game with id " ++ toString id := by
  unfold getGame updateGame deleteGame
  simp [h, notFoundMessage]

/-- C5 witness: the three by-id operations on a never-used id of the
empty store. -/
theorem c5_not_found_all_witness :
    getGame ⟨[], 5⟩ 3 = (⟨404, .message (notFoundMessage 3)⟩, ⟨[], 5⟩) ∧
    updateGame ⟨[], 5⟩ 3 ⟨none, none, none, none⟩ 0 =
      (⟨404, .message (notFoundMessage 3)⟩, ⟨[], 5⟩) ∧
    deleteGame ⟨[], 5⟩ 3 = (⟨404, .message (notFoundMessage 3)⟩, ⟨[], 5⟩) ∧
    notFoundMessage 3 = "Cannot find the game with id " ++ toString 3 :=
  c5_not_found_all ⟨[], 5⟩ 3 ⟨none, none, none, none⟩ 0 rfl

/-- C8: UpdateById runs no validator: an update payload that sets the
required `name` field to the empty string succeeds with 200 and the
stored record's `name` is blanked out. -/
theorem c8_update_no_validation (st : Store) (id : Nat) (p : Payload)
    (now : Nat) (r : GameRecord)
    (h : findById st id = some r) (hp : p.name = some "") :
    (updateGame st id p now).1 = ⟨200, .record (applyUpdate r p now)⟩ ∧
    (applyUpdate r p now).name = "" ∧
    findById (updateGame st id p now).2 id = some (applyUpdate r p now) := by
  have hrid : r.id = id := by
    have := List.find?_some h
    simpa using this
  have hrid2 : (applyUpdate r p now).id = id := by
    simp [applyUpdate, hrid]
  refine ⟨?_, ?_, ?_⟩
  · simp [updateGame, h]
  · simp [applyUpdate, hp]
  · have h' : st.games.find? (fun g => g.id == id) = some r := h
    simp only [updateGame, findById, h']
    rw [find?_map_replace _ _ _ hrid2, h']
    rfl

/-- C8 witness: blanking the name of a concrete stored record. -/
theorem c8_update_no_validation_witness :
    (updateGame ⟨[⟨0, "Chess", "http://x", "A", "2020", 5, 5⟩], 1⟩ 0
        ⟨some "", none, none, none⟩ 9).1 =
      ⟨200, .record (applyUpdate ⟨0, "Chess", "http://x", "A", "2020", 5, 5⟩
        ⟨some "", none, none, none⟩ 9)⟩ ∧
    (applyUpdate ⟨0, "Chess", "http://x", "A", "2020", 5, 5⟩
      ⟨some "", none, none, none⟩ 9).name = "" ∧
    findById (updateGame ⟨[⟨0, "Chess", "http://x", "A", "2020", 5, 5⟩], 1⟩ 0
        ⟨some "", none, none, none⟩ 9).2 0 =
      some (applyUpdate ⟨0, "Chess", "http://x", "A", "2020", 5, 5⟩
        ⟨some "", none, none, none⟩ 9) :=
  c8_update_no_validation ⟨[⟨0, "Chess", "http://x", "A", "2020", 5, 5⟩], 1⟩ 0
    ⟨some "", none, none, none⟩ 9 ⟨0, "Chess", "http://x", "A", "2020", 5, 5⟩
    rfl rfl

/-- C3: UpdateById on an existing record merges only the fields the
partial payload provides and refreshes `updatedAt`: omitted fields,
the identifier and `createdAt` keep their previous values, the updated
record is returned with 200 and is what a subsequent lookup sees, and
every other record is untouched. -/
theorem c3_update_frame (st : Store) (id : Nat) (p : Payload) (now : Nat)
    (r : GameRecord) (h : findById st id = some r) :
    (updateGame st id p now).1 = ⟨200, .record (applyUpdate r p now)⟩ ∧
    findById (updateGame st id p now).2 id = some (applyUpdate r p now) ∧
    (p.name = none → (applyUpdate r p now).name = r.name) ∧
    (p.url = none → (applyUpdate r p now).url = r.url) ∧
    (p.author = none → (applyUpdate r p now).author = r.author) ∧
    (p.datePublished = none →
      (applyUpdate r p now).datePublished = r.datePublished) ∧
    (applyUpdate r p now).id = r.id ∧
    (applyUpdate r p now).createdAt = r.createdAt ∧
    (applyUpdate r p now).updatedAt = now ∧
    (∀ g ∈ st.games, g.id ≠ id → g ∈ (updateGame st id p now).2.games) := by
  have h' : st.games.find? (fun g => g.id == id) = some r := h
  have hrid : r.id = id := by
    have := List.find?_some h
    simpa using this
  have hrid2 : (applyUpdate r p now).id = id := by
    simp [applyUpdate, hrid]
  refine ⟨?_, ?_, ?_, ?_, ?_, ?_, ?_, ?_, ?_, ?_⟩
  · simp [updateGame, h]
  · simp only [updateGame, findById, h']
    rw [find?_map_replace _ _ _ hrid2, h']
    rfl
  · intro hf; simp [applyUpdate, hf]
  · intro hf; simp [applyUpdate, hf]
  · intro hf; simp [applyUpdate, hf]
  · intro hf; simp [applyUpdate, hf]
  · simp [applyUpdate]
  · simp [applyUpdate]
  · simp [applyUpdate]
  · intro g hg hne
    simp only [updateGame, findById, h']
    exact List.mem_map.mpr ⟨g, hg, by simp [hne]⟩

/-- C3 witness: updating only the name of a concrete stored record. -/
theorem c3_update_frame_witness :
    (updateGame ⟨[⟨0, "Chess", "http://x", "A", "2020", 5, 5⟩], 1⟩ 0
        ⟨some "X", none, none, none⟩ 9).1 =
      ⟨200, .record (applyUpdate ⟨0, "Chess", "http://x", "A", "2020", 5, 5⟩
        ⟨some "X", none, none, none⟩ 9)⟩ ∧
    (applyUpdate ⟨0, "Chess", "http://x", "A", "2020", 5, 5⟩
      ⟨some "X", none, none, none⟩ 9).url = "http://x" ∧
    (applyUpdate ⟨0, "Chess", "http://x", "A", "2020", 5, 5⟩
      ⟨some "X", none, none, none⟩ 9).updatedAt = 9 :=
  have h := c3_update_frame ⟨[⟨0, "Chess", "http://x", "A", "2020", 5, 5⟩], 1⟩ 0
    ⟨some "X", none, none, none⟩ 9 ⟨0, "Chess", "http://x", "A", "2020", 5, 5⟩ rfl
  ⟨h.1, h.2.2.2.1 rfl, h.2.2.2.2.2.2.2.2.1⟩

/-- C6: a successful Create followed by GetById on the assigned
identifier returns the created record unchanged, and that record
carries exactly the payload's four field values. -/
theorem c6_create_then_get (st : Store) (p : Payload) (now : Nat)
    (r : GameRecord) (st2 : Store)
    (hFresh : ∀ g ∈ st.games, g.id < st.nextId)
    (h : createGame st p now = .ok (r, st2)) :
    getGame st2 r.id = (⟨200, .record r⟩, st2) ∧
    r.name = p.name.getD "" ∧ r.url = p.url.getD "" ∧
    r.author = p.author.getD "" ∧
    r.datePublished = p.datePublished.getD "" := by
  obtain ⟨hr, hst2⟩ := createGame_ok_spec h
  have hid : r.id = st.nextId := by rw [hr]
  have hfind : findById st2 r.id = some r := by
    rw [hst2]
    unfold findById
    rw [List.find?_append]
    have h1 : st.games.find? (fun g => g.id == r.id) = none := by
      rw [List.find?_eq_none]
      intro g hg
      have hlt := hFresh g hg
      simp only [beq_iff_eq, hid]
      omega
    rw [h1]
    simp
  refine ⟨by simp [getGame, hfind], ?_, ?_, ?_, ?_⟩ <;> rw [hr]

/-- C6 witness: create on the empty store, then look the record up. -/
theorem c6_create_then_get_witness :
    getGame ⟨[⟨0, "Chess", "http://x", "A", "2020", 7, 7⟩], 1⟩
        (GameRecord.id ⟨0, "Chess", "http://x", "A", "2020", 7, 7⟩) =
      (⟨200, .record ⟨0, "Chess", "http://x", "A", "2020", 7, 7⟩⟩,
        ⟨[⟨0, "Chess", "http://x", "A", "2020", 7, 7⟩], 1⟩) ∧
    GameRecord.name ⟨0, "Chess", "http://x", "A", "2020", 7, 7⟩ =
      Option.getD (some "Chess") "" ∧
    GameRecord.url ⟨0, "Chess", "http://x", "A", "2020", 7, 7⟩ =
      Option.getD (some "http://x") "" ∧
    GameRecord.author ⟨0, "Chess", "http://x", "A", "2020", 7, 7⟩ =
      Option.getD (some "A") "" ∧
    GameRecord.datePublished ⟨0, "Chess", "http://x", "A", "2020", 7, 7⟩ =
      Option.getD (some "2020") "" :=
  c6_create_then_get ⟨[], 0⟩ ⟨some "Chess", some "http://x", some "A", some "2020"⟩
    7 ⟨0, "Chess", "http://x", "A", "2020", 7, 7⟩
    ⟨[⟨0, "Chess", "http://x", "A", "2020", 7, 7⟩], 1⟩
    (by simp) rfl

/-- C7: ListAll on the empty store answers 200 with the empty array and
never an error; after three successful creates it returns exactly the
three created records. -/
theorem c7_list_all (st0 : Store) (p1 p2 p3 : Payload) (t1 t2 t3 : Nat)
    (r1 r2 r3 : GameRecord) (st1 st2 st3 : Store)
    (h0 : st0.games = [])
    (h1 : createGame st0 p1 t1 = .ok (r1, st1))
    (h2 : createGame st1 p2 t2 = .ok (r2, st2))
    (h3 : createGame st2 p3 t3 = .ok (r3, st3)) :
    listGames st0 = (⟨200, .records []⟩, st0) ∧
    listGames st3 = (⟨200, .records [r1, r2, r3]⟩, st3) ∧
    (∀ g, g ∈ st3.games ↔ (g = r1 ∨ g = r2 ∨ g = r3)) := by
  obtain ⟨-, hs1⟩ := createGame_ok_spec h1
  obtain ⟨-, hs2⟩ := createGame_ok_spec h2
  obtain ⟨-, hs3⟩ := createGame_ok_spec h3
  have hg3 : st3.games = [r1, r2, r3] := by
    rw [hs3]
    show st2.games ++ [r3] = _
    rw [hs2]
    show (st1.games ++ [r2]) ++ [r3] = _
    rw [hs1]
    show ((st0.games ++ [r1]) ++ [r2]) ++ [r3] = _
    rw [h0]
    rfl
  refine ⟨?_, ?_, ?_⟩
  · unfold listGames
    rw [h0]
  · unfold listGames
    rw [hg3]
  · intro g
    rw [hg3]
    simp

/-- C7 witness: the empty store lists empty; after three concrete
creates the listing is exactly the three records. -/
theorem c7_list_all_witness :
    listGames ⟨[], 0⟩ = (⟨200, .records []⟩, ⟨[], 0⟩) ∧
    listGames ⟨[⟨0, "a", "b", "c", "d", 1, 1⟩, ⟨1, "a", "b", "c", "d", 2, 2⟩,
        ⟨2, "a", "b", "c", "d", 3, 3⟩], 3⟩ =
      (⟨200, .records [⟨0, "a", "b", "c", "d", 1, 1⟩,
        ⟨1, "a", "b", "c", "d", 2, 2⟩, ⟨2, "a", "b", "c", "d", 3, 3⟩]⟩,
        ⟨[⟨0, "a", "b", "c", "d", 1, 1⟩, ⟨1, "a", "b", "c", "d", 2, 2⟩,
          ⟨2, "a", "b", "c", "d", 3, 3⟩], 3⟩) ∧
    (∀ g, g ∈ Store.games ⟨[⟨0, "a", "b", "c", "d", 1, 1⟩,
        ⟨1, "a", "b", "c", "d", 2, 2⟩, ⟨2, "a", "b", "c", "d", 3, 3⟩], 3⟩ ↔
      (g = ⟨0, "a", "b", "c", "d", 1, 1⟩ ∨ g = ⟨1, "a", "b", "c", "d", 2, 2⟩ ∨
        g = ⟨2, "a", "b", "c", "d", 3, 3⟩)) :=
  c7_list_all ⟨[], 0⟩ ⟨some "a", some "b", some "c", some "d"⟩
    ⟨some "a", some "b", some "c", some "d"⟩
    ⟨some "a", some "b", some "c", some "d"⟩ 1 2 3
    ⟨0, "a", "b", "c", "d", 1, 1⟩ ⟨1, "a", "b", "c", "d", 2, 2⟩
    ⟨2, "a", "b", "c", "d", 3, 3⟩
    ⟨[⟨0, "a", "b", "c", "d", 1, 1⟩], 1⟩
    ⟨[⟨0, "a", "b", "c", "d", 1, 1⟩, ⟨1, "a", "b", "c", "d", 2, 2⟩], 2⟩
    ⟨[⟨0, "a", "b", "c", "d", 1, 1⟩, ⟨1, "a", "b", "c", "d", 2, 2⟩,
      ⟨2, "a", "b", "c", "d", 3, 3⟩], 3⟩
    rfl rfl rfl rfl

theorem map_replace_ids (l : List GameRecord) (id : Nat) (r2 : GameRecord)
    (h2 : r2.id = id) :
    (l.map (fun g => if g.id == id then r2 else g)).map (fun g => g.id) =
      l.map (fun g => g.id) := by
  rw [List.map_map]
  apply List.map_congr_left
  intro g _
  by_cases hg : g.id = id
  · simp [hg, h2]
  · simp [hg]

theorem updateGame_ids (st : Store) (id : Nat) (p : Payload) (now : Nat) :
    (updateGame st id p now).2.games.map (fun g => g.id) =
      st.games.map (fun g => g.id) := by
  unfold updateGame
  cases hf : findById st id with
  | none => rfl
  | some r =>
    have hrid : (applyUpdate r p now).id = id := by
      have := List.find?_some hf
      simp only [applyUpdate]
      simpa using this
    exact map_replace_ids _ _ _ hrid

theorem updateGame_nextId (st : Store) (id : Nat) (p : Payload) (now : Nat) :
    (updateGame st id p now).2.nextId = st.nextId := by
  unfold updateGame
  cases hf : findById st id <;> rfl

theorem deleteGame_store (st : Store) (id : Nat) :
    (deleteGame st id).2.games.Sublist st.games ∧
    (deleteGame st id).2.nextId = st.nextId := by
  unfold deleteGame
  cases hf : findById st id with
  | none => exact ⟨List.Sublist.refl _, rfl⟩
  | some r => exact ⟨List.filter_sublist _, rfl⟩

theorem step_preserves_idFree {st : Store} {id : Nat} (op : Op)
    (h : idFree st id) : idFree (step st op) id := by
  obtain ⟨hmem, hlt⟩ := h
  cases op with
  | create p now =>
    show idFree (postGame st p now).2 id
    unfold postGame
    cases hc : createGame st p now with
    | error e => exact ⟨hmem, hlt⟩
    | ok pr =>
      obtain ⟨r, st2⟩ := pr
      obtain ⟨hr, hst2⟩ := createGame_ok_spec hc
      refine ⟨?_, ?_⟩
      · intro g hg
        rw [hst2] at hg
        rcases List.mem_append.mp hg with hg | hg
        · exact hmem g hg
        · have hgr : g = r := by simpa using hg
          have hid : g.id = st.nextId := by rw [hgr, hr]
          omega
      · rw [hst2]
        show id < st.nextId + 1
        omega
  | list => exact ⟨hmem, hlt⟩
  | get id2 =>
    show idFree (getGame st id2).2 id
    unfold getGame
    cases hf : findById st id2 <;> exact ⟨hmem, hlt⟩
  | update id2 p now =>
    refine ⟨?_, ?_⟩
    · intro g hg
      have : g.id ∈ (updateGame st id2 p now).2.games.map (fun g => g.id) :=
        List.mem_map_of_mem _ hg
      rw [updateGame_ids] at this
      obtain ⟨g0, hg0, hid0⟩ := List.mem_map.mp this
      rw [← hid0]
      exact hmem g0 hg0
    · show id < (updateGame st id2 p now).2.nextId
      rw [updateGame_nextId]
      exact hlt
  | delete id2 =>
    obtain ⟨hsub, hnext⟩ := deleteGame_store st id2
    refine ⟨fun g hg => hmem g (hsub.mem hg), ?_⟩
    show id < (deleteGame st id2).2.nextId
    rw [hnext]
    exact hlt

theorem run_preserves_idFree {st : Store} {id : Nat} (ops : List Op)
    (h : idFree st id) : idFree (run st ops) id := by
  induction ops generalizing st with
  | nil => exact h
  | cons op ops ih => exact ih (step_preserves_idFree op h)

theorem findById_of_idFree {st : Store} {id : Nat} (h : idFree st id) :
    findById st id = none := by
  unfold findById
  rw [List.find?_eq_none]
  intro g hg
  simpa using h.1 g hg

theorem step_preserves_Inv {st : Store} (op : Op) (h : Inv st) :
    Inv (step st op) := by
  obtain ⟨hnd, hlt⟩ := h
  cases op with
  | create p now =>
    show Inv (postGame st p now).2
    unfold postGame
    cases hc : createGame st p now with
    | error e => exact ⟨hnd, hlt⟩
    | ok pr =>
      obtain ⟨r, st2⟩ := pr
      obtain ⟨hr, hst2⟩ := createGame_ok_spec hc
      rw [hst2]
      constructor
      · show ((st.games ++ [r]).map (fun g => g.id)).Nodup
        rw [List.map_append]
        rw [List.nodup_append]
        refine ⟨hnd, by simp, ?_⟩
        intro x hx
        obtain ⟨g, hg, hid⟩ := List.mem_map.mp hx
        have := hlt g hg
        simp only [List.mem_map, List.mem_singleton]
        rintro ⟨g2, hg2, hid2⟩
        have hg2r : g2 = r := by simpa using hg2
        have hid3 : g2.id = st.nextId := by rw [hg2r, hr]
        omega
      · intro g hg
        show g.id < st.nextId + 1
        rcases List.mem_append.mp hg with hg | hg
        · have := hlt g hg; omega
        · have hgr : g = r := by simpa using hg
          have hid : g.id = st.nextId := by rw [hgr, hr]
          omega
  | list => exact ⟨hnd, hlt⟩
  | get id2 =>
    show Inv (getGame st id2).2
    unfold getGame
    cases hf : findById st id2 <;> exact ⟨hnd, hlt⟩
  | update id2 p now =>
    constructor
    · show ((updateGame st id2 p now).2.games.map (fun g => g.id)).Nodup
      rw [updateGame_ids]
      exact hnd
    · intro g hg
      have : g.id ∈ (updateGame st id2 p now).2.games.map (fun g => g.id) :=
        List.mem_map_of_mem _ hg
      rw [updateGame_ids] at this
      obtain ⟨g0, hg0, hid0⟩ := List.mem_map.mp this
      show g.id < (updateGame st id2 p now).2.nextId
      rw [updateGame_nextId, ← hid0]
      exact hlt g0 hg0
  | delete id2 =>
    obtain ⟨hsub, hnext⟩ := deleteGame_store st id2
    constructor
    · exact List.Nodup.sublist (hsub.map (fun g => g.id)) hnd
    · intro g hg
      show g.id < (deleteGame st id2).2.nextId
      rw [hnext]
      exact hlt g (hsub.mem hg)

/-- C4: DeleteById on an existing record answers 200 with the record as
it existed before deletion, removes it from the store, and every
subsequent GetById on that identifier — after any further sequence of
requests — answers 404 with the message naming it. -/
theorem c4_delete_then_get (st : Store) (id : Nat) (r : GameRecord)
    (hInv : Inv st) (h : findById st id = some r) :
    (deleteGame st id).1 = ⟨200, .record r⟩ ∧
    (∀ g ∈ (deleteGame st id).2.games, g.id ≠ id) ∧
    (∀ ops : List Op,
      getGame (run (deleteGame st id).2 ops) id =
        (⟨404, .message (notFoundMessage id)⟩,
          run (deleteGame st id).2 ops)) := by
  have h' : st.games.find? (fun g => g.id == id) = some r := h
  have hmem : r ∈ st.games := List.mem_of_find?_eq_some h
  have hrid : r.id = id := by simpa using List.find?_some h
  have hlt : id < st.nextId := hrid ▸ hInv.2 r hmem
  have hfree : idFree (deleteGame st id).2 id := by
    constructor
    · intro g hg
      simp only [deleteGame, findById, h'] at hg
      have := (List.mem_filter.mp hg).2
      simpa using this
    · rw [(deleteGame_store st id).2]
      exact hlt
  refine ⟨by simp [deleteGame, h], hfree.1, ?_⟩
  intro ops
  have hnone : findById (run (deleteGame st id).2 ops) id = none :=
    findById_of_idFree (run_preserves_idFree ops hfree)
  simp [getGame, hnone]

/-- C4 witness: deleting the only record of a concrete store, then
looking it up again after a further create. -/
theorem c4_delete_then_get_witness :
    (deleteGame ⟨[⟨0, "Chess", "http://x", "A", "2020", 5, 5⟩], 1⟩ 0).1 =
      ⟨200, .record ⟨0, "Chess", "http://x", "A", "2020", 5, 5⟩⟩ ∧
    (∀ g ∈ (deleteGame ⟨[⟨0, "Chess", "http://x", "A", "2020", 5, 5⟩], 1⟩ 0).2.games,
      g.id ≠ 0) ∧
    (∀ ops : List Op,
      getGame (run (deleteGame ⟨[⟨0, "Chess", "http://x", "A", "2020", 5, 5⟩], 1⟩ 0).2 ops) 0 =
        (⟨404, .message (notFoundMessage 0)⟩,
          run (deleteGame ⟨[⟨0, "Chess", "http://x", "A", "2020", 5, 5⟩], 1⟩ 0).2 ops)) :=
  c4_delete_then_get ⟨[⟨0, "Chess", "http://x", "A", "2020", 5, 5⟩], 1⟩ 0
    ⟨0, "Chess", "http://x", "A", "2020", 5, 5⟩ (by decide) rfl

/-- C9: identifiers are backend-assigned and disciplined: a successful
Create always uses the backend counter (the payload carries no
identifier), every request preserves distinctness of stored ids and
their bound by the counter, a dead id stays dead (never reused), and
UpdateById never changes any record's identifier. -/
theorem c9_id_discipline (st : Store) (op : Op) (id : Nat)
    (hInv : Inv st) (hFree : idFree st id) :
    Inv (step st op) ∧
    idFree (step st op) id ∧
    (∀ p now r st2, createGame st p now = .ok (r, st2) → r.id = st.nextId) ∧
    (∀ id2 p now,
      (updateGame st id2 p now).2.games.map (fun g => g.id) =
        st.games.map (fun g => g.id)) := by
  refine ⟨step_preserves_Inv op hInv, step_preserves_idFree op hFree, ?_, ?_⟩
  · intro p now r st2 hc
    rw [(createGame_ok_spec hc).1]
  · intro id2 p now
    exact updateGame_ids st id2 p now

/-- C9 witness: the discipline at a concrete store, request and id. -/
theorem c9_id_discipline_witness :
    Inv (step ⟨[⟨1, "a", "b", "c", "d", 0, 0⟩], 2⟩
      (.create ⟨some "x", some "y", some "z", some "w"⟩ 4)) ∧
    idFree (step ⟨[⟨1, "a", "b", "c", "d", 0, 0⟩], 2⟩
      (.create ⟨some "x", some "y", some "z", some "w"⟩ 4)) 0 ∧
    (∀ p now r st2,
      createGame ⟨[⟨1, "a", "b", "c", "d", 0, 0⟩], 2⟩ p now = .ok (r, st2) →
        r.id = Store.nextId ⟨[⟨1, "a", "b", "c", "d", 0, 0⟩], 2⟩) ∧
    (∀ id2 p now,
      (updateGame ⟨[⟨1, "a", "b", "c", "d", 0, 0⟩], 2⟩ id2 p now).2.games.map
          (fun g => g.id) =
        (Store.games ⟨[⟨1, "a", "b", "c", "d", 0, 0⟩], 2⟩).map (fun g => g.id)) :=
  c9_id_discipline ⟨[⟨1, "a", "b", "c", "d", 0, 0⟩], 2⟩
    (.create ⟨some "x", some "y", some "z", some "w"⟩ 4) 0
    (by decide) (by decide)

/-- C10: a route parameter that is not castable to an ObjectId makes
all three by-id handlers answer 500 with the cast error's message
instead of 404, leaving the store unchanged. -/
theorem c10_cast_error (st : Store) (idStr : String) (p : Payload) (now : Nat)
    (h : isValidObjectId idStr = false) :
    getGameHttp st idStr = (⟨500, .message (castErrorMessage idStr)⟩, st) ∧
    updateGameHttp st idStr p now =
      (⟨500, .message (castErrorMessage idStr)⟩, st) ∧
    deleteGameHttp st idStr = (⟨500, .message (castErrorMessage idStr)⟩, st) := by
  unfold getGameHttp updateGameHttp deleteGameHttp
  simp [h]

/-- C10 witness: the three handlers on the uncastable id string
"abc". -/
theorem c10_cast_error_witness :
    getGameHttp ⟨[], 0⟩ "abc" =
      (⟨500, .message (castErrorMessage "abc")⟩, ⟨[], 0⟩) ∧
    updateGameHttp ⟨[], 0⟩ "abc" ⟨none, none, none, none⟩ 0 =
      (⟨500, .message (castErrorMessage "abc")⟩, ⟨[], 0⟩) ∧
    deleteGameHttp ⟨[], 0⟩ "abc" =
      (⟨500, .message (castErrorMessage "abc")⟩, ⟨[], 0⟩) :=
  c10_cast_error ⟨[], 0⟩ "abc" ⟨none, none, none, none⟩ 0 (by decide)

end GameCrud
